import Mathlib

/-!
Shallow embedding of src/removepassword.py (paperless-ngx pre-consume script).

The script manipulates PDF files through the external pikepdf library and the
filesystem.  Those collaborators are modelled abstractly:

* a file system is a total map from paths to byte contents (List Nat);
* a PdfWorld gives, as pure functions of the byte contents of a file,
  the outcome of pikepdf.open without a password (some parsed document, or
  none when the call raises), the outcome of pikepdf.open with a candidate
  password (opens, raises PasswordError, or raises some other exception), and
  the bytes that pdf.save(path, deterministic_id=True) writes.  Making save a
  pure function of the content is exactly the deterministic-identifier
  contract: identical logical content yields identical saved bytes.

All control flow (the trial loop, the except clauses, the orchestrator and the
directory loop) is translated from the Python source.
-/

/-- Python pathlib paths, reduced to what the script uses: whether the path is
absolute and its list of components. -/
structure PyPath where
  absolute : Bool
  components : List String
deriving DecidableEq

/-- Python pathlib. The / operator: joining with an absolute right operand
discards the left operand entirely. -/
def PyPath.join (base child : PyPath) : PyPath :=
  if child.absolute then child
  else ⟨base.absolute, base.components ++ child.components⟩

/-- Python pathlib. Path.name, the final component (empty for a bare root). -/
def PyPath.name (p : PyPath) : String :=
  (p.components.getLast?).getD ""

/-- Splits a character list at its last dot: returns the characters before and
after the last occurrence of a dot, or none when there is no dot. -/
def splitLastDot : List Char → Option (List Char × List Char)
  | [] => none
  | c :: rest =>
    match splitLastDot rest with
    | some (b, a) => some (c :: b, a)
    | none => if c = '.' then some ([], rest) else none

/-- Python pathlib. Path.suffix of a file name: the part from the last dot on,
provided the dot is neither the first nor the last character; otherwise the
empty string. -/
def pySuffix (name : String) : String :=
  match splitLastDot name.toList with
  | some (b, a) => if b ≠ [] ∧ a ≠ [] then String.mk ('.' :: a) else ""
  | none => ""

/-- Python str.lower, character by character (the script only meets ASCII
extensions). -/
def pyToLower (s : String) : String :=
  String.mk (s.toList.map Char.toLower)

/-- Source is_pdf (line 60): file_path.suffix.lower() == ".pdf", a
case-insensitive extension test on the final component. -/
def is_pdf (p : PyPath) : Bool :=
  pyToLower (pySuffix p.name) == ".pdf"

/-- Directory mode (line 204) selects children via glob with the literal
pattern *.pdf, which matches exactly the names ending in the case-sensitive
four characters .pdf. -/
def globPdf (name : String) : Bool :=
  name.toList.reverse.take 4 == ['f', 'd', 'p', '.']

/-- Outcome of one pikepdf.open(file_path, password=...) call: the document
opens, the call raises pikepdf.PasswordError, or it raises any other
exception. -/
inductive TrialResult
  | ok
  | wrongPassword
  | otherError
deriving DecidableEq

/-- One embedded attachment spec as the script reads it: the stored filename
(already parsed as a path), the attachment bytes, and whether writing those
bytes to the destination succeeds. -/
structure AttachSpec where
  filename : PyPath
  content : List Nat
  writeOk : Bool
deriving DecidableEq

/-- One entry of the attachment collection: its key and the result of
attachments.get(key), which may be none (unresolvable record). -/
structure AttachmentEntry where
  key : String
  spec : Option AttachSpec
deriving DecidableEq

/-- A parsed PDF document as the script inspects it: the is_encrypted flag of
the security handler and the attachment collection. -/
structure PdfDoc where
  is_encrypted : Bool
  attachments : List AttachmentEntry
deriving DecidableEq

/-- The pikepdf collaborator, as pure functions of a file's byte contents. -/
structure PdfWorld where
  openDoc : List Nat → Option PdfDoc
  trial : List Nat → String → TrialResult
  save : List Nat → List Nat

/-- Pointwise update of a file system at one path. -/
def setFile (files : PyPath → List Nat) (p : PyPath) (b : List Nat) :
    PyPath → List Nat :=
  fun q => if q = p then b else files q

/-- Source is_pdf_encrypted (lines 67-75): open the file and return
pdf.is_encrypted; any exception yields True. -/
def is_pdf_encrypted (w : PdfWorld) (files : PyPath → List Nat)
    (path : PyPath) : Bool :=
  match w.openDoc (files path) with
  | some pdf => pdf.is_encrypted
  | none => true

/-- Source pdf_has_attachments (lines 78-86): open the file and return
len(pdf.attachments) > 0; any exception yields False. -/
def pdf_has_attachments (w : PdfWorld) (files : PyPath → List Nat)
    (path : PyPath) : Bool :=
  match w.openDoc (files path) with
  | some pdf => decide (0 < pdf.attachments.length)
  | none => false

/-- How the trial loop of unlock_pdf terminates: success printed and file
saved, the failure message printed after exhausting the list, or an uncaught
exception propagating out of the function. -/
inductive UnlockExit
  | reportedSuccess
  | reportedFailure
  | raised
deriving DecidableEq

/-- Intermediate result of the trial loop: passwords attempted in order, how
the loop ended, and whether pdf.save was executed. -/
structure GoResult where
  attempts : List String
  exit : UnlockExit
  saved : Bool
deriving DecidableEq

/-- The for-loop of unlock_pdf (lines 97-107): try each password in order;
on ok, save and break with success; on PasswordError, continue; on any other
exception, propagate (only pikepdf.PasswordError is caught). -/
def unlockGo (trial : String → TrialResult) : List String → GoResult
  | [] => ⟨[], .reportedFailure, false⟩
  | p :: rest =>
    match trial p with
    | .ok => ⟨[p], .reportedSuccess, true⟩
    | .otherError => ⟨[p], .raised, false⟩
    | .wrongPassword =>
      let r := unlockGo trial rest
      ⟨p :: r.attempts, r.exit, r.saved⟩

/-- Result of unlock_pdf: the attempts, the exit kind, and the file system
after the call (changed only by pdf.save on success). -/
structure UnlockResult where
  attempts : List String
  exit : UnlockExit
  finalFiles : PyPath → List Nat

/-- Source unlock_pdf (lines 89-109): run the trial loop on the file's current
bytes; when a trial succeeds the document is saved back to the same path with
deterministic_id=True, modelled as writing w.save of the original bytes. -/
def unlock_pdf (w : PdfWorld) (files : PyPath → List Nat) (path : PyPath)
    (passwords : List String) : UnlockResult :=
  let g := unlockGo (w.trial (files path)) passwords
  ⟨g.attempts, g.exit,
    if g.saved then setFile files path (w.save (files path)) else files⟩

/-- Per-attachment outcome of the extraction loop body (lines 122-139):
an unresolvable record, a skip because the filename is not PDF-typed, a
successful write of the content bytes to a target path, or a caught write
failure at that target. -/
inductive AtOutcome
  | unresolvable (key : String)
  | skippedNotPdf (filename : PyPath)
  | written (target : PyPath) (bytes : List Nat)
  | writeFailed (target : PyPath)
deriving DecidableEq

/-- Body of the extraction loop for one attachment entry: spec None is
skipped; a PDF-named spec is written to consume_path / filename (a write
error is caught and recorded); anything else is skipped as not a PDF. -/
def extractStep (consume : PyPath) (a : AttachmentEntry) : AtOutcome :=
  match a.spec with
  | none => .unresolvable a.key
  | some s =>
    if is_pdf s.filename then
      if s.writeOk then .written (consume.join s.filename) s.content
      else .writeFailed (consume.join s.filename)
    else .skippedNotPdf s.filename

/-- Source extract_pdf_attachments (lines 112-139): the opening
pikepdf.open(file_path) is not inside a try, so an unopenable file makes the
whole function raise (none); otherwise every attachment entry is processed in
order, each yielding one outcome. -/
def extract_pdf_attachments (w : PdfWorld) (files : PyPath → List Nat)
    (path consume : PyPath) : Option (List AtOutcome) :=
  match w.openDoc (files path) with
  | none => none
  | some pdf => some (pdf.attachments.map (extractStep consume))

/-- Trace of process_pdf_file on one file: whether it returned early as not a
PDF, the encryption verdict, the unlock result when decryption ran, whether
the attachment check was reached and its verdict, the extraction outcomes
when extraction ran (inner none meaning extraction raised), whether the call
propagated an exception, and the file system afterwards. -/
structure ProcResult where
  notPdf : Bool
  wasEncrypted : Bool
  unlockRes : Option UnlockResult
  attachmentsChecked : Bool
  hasAtt : Bool
  extractRes : Option (Option (List AtOutcome))
  raised : Bool
  finalFiles : PyPath → List Nat

/-- Second half of process_pdf_file (lines 159-165): re-open the file to ask
for attachments and extract when there are any. -/
def attachStage (w : PdfWorld) (files : PyPath → List Nat)
    (path consume : PyPath) (wasEnc : Bool) (u : Option UnlockResult) :
    ProcResult :=
  if pdf_has_attachments w files path then
    match extract_pdf_attachments w files path consume with
    | none => ⟨false, wasEnc, u, true, true, some none, true, files⟩
    | some outs => ⟨false, wasEnc, u, true, true, some (some outs), false, files⟩
  else ⟨false, wasEnc, u, true, false, none, false, files⟩

/-- Source process_pdf_file (lines 142-165): return early when the extension
check fails; otherwise run decryption when the file looks encrypted (an
exception escaping unlock_pdf aborts the call), then the attachment stage on
the possibly rewritten file. -/
def process_pdf_file (w : PdfWorld) (files : PyPath → List Nat)
    (path : PyPath) (passwords : List String) (consume : PyPath) : ProcResult :=
  if is_pdf path then
    if is_pdf_encrypted w files path then
      let u := unlock_pdf w files path passwords
      if u.exit = UnlockExit.raised then
        ⟨false, true, some u, false, false, none, true, u.finalFiles⟩
      else attachStage w u.finalFiles path consume true (some u)
    else attachStage w files path consume false none
  else ⟨true, false, none, false, false, none, false, files⟩

/-- Result of the directory loop: the files processed (with their traces) in
order, the final file system, and whether the run was aborted by an uncaught
exception. -/
structure DirResult where
  processed : List (String × ProcResult)
  finalFiles : PyPath → List Nat
  aborted : Bool

/-- The directory branch of the main script (lines 202-206): iterate over the
children whose names glob-match *.pdf and process each in turn; the loop body
is not guarded by a try, so a propagating exception kills the run with the
remaining files unprocessed. -/
def directoryRun (w : PdfWorld) (dir consume : PyPath)
    (passwords : List String) :
    (PyPath → List Nat) → List String → DirResult
  | files, [] => ⟨[], files, false⟩
  | files, n :: rest =>
    if globPdf n then
      let r := process_pdf_file w files (dir.join ⟨false, [n]⟩) passwords consume
      if r.raised then ⟨[(n, r)], r.finalFiles, true⟩
      else
        let d := directoryRun w dir consume passwords r.finalFiles rest
        ⟨(n, r) :: d.processed, d.finalFiles, d.aborted⟩
    else directoryRun w dir consume passwords files rest

/-- Python str whitespace for strip: the ASCII whitespace characters. -/
def isPyWs (c : Char) : Bool :=
  c = ' ' || c = '\t' || c = '\n' || c = '\r' || c = '\x0b' || c = '\x0c'

/-- Python str.strip with no argument: remove leading and trailing
whitespace. -/
def pyStrip (s : String) : String :=
  String.mk (((s.toList.dropWhile isPyWs).reverse.dropWhile isPyWs).reverse)

/-- Python str.splitlines restricted to the terminators the password file
format uses: newline, carriage return, and the carriage-return newline pair;
a trailing terminator does not produce a final empty line. -/
def splitlinesGo : List Char → List Char → List String
  | acc, [] => if acc.isEmpty then [] else [String.mk acc.reverse]
  | acc, '\r' :: '\n' :: rest => String.mk acc.reverse :: splitlinesGo [] rest
  | acc, '\r' :: rest => String.mk acc.reverse :: splitlinesGo [] rest
  | acc, '\n' :: rest => String.mk acc.reverse :: splitlinesGo [] rest
  | acc, c :: rest => splitlinesGo (c :: acc) rest

/-- Python str.splitlines on a whole string. -/
def pySplitlines (s : String) : List String :=
  splitlinesGo [] s.toList

/-- Source get_passwords (lines 168-175): strip every line of the file text
and keep, in order, those whose length is positive. -/
def get_passwords (text : String) : List String :=
  ((pySplitlines text).map pyStrip).filter (fun p => decide (0 < p.length))

/-- Spec sentence for password loading, written from its words: split into
lines, trim leading and trailing whitespace from each line, and drop the
empty lines, preserving order. -/
def specPasswordLoad (text : String) : List String :=
  ((pySplitlines text).map pyStrip).filter (fun p => decide (p ≠ ""))

example :
    (unlock_pdf ⟨fun _ => none, fun _ q => if q = "b" then .ok else .wrongPassword, fun b => 9 :: b⟩
      (fun _ => [1]) ⟨true, ["x.pdf"]⟩ ["a", "b", "c"]).attempts = ["a", "b"] := by
  decide

example : is_pdf ⟨false, ["doc.PDF"]⟩ = true ∧ globPdf "doc.PDF" = false := by
  decide

example : get_passwords "w1\n  hunter2 \n\nw2\n" = ["w1", "hunter2", "w2"] := by
  decide

example : pySuffix ".pdf" = "" ∧ pySuffix "a.b.c" = ".c" ∧ pySuffix "a." = "" := by
  decide

/-- When every password in the list raises PasswordError the loop runs through
the whole list, reports failure, and never saves. -/
theorem unlockGo_all_wrong (trial : String → TrialResult) :
    ∀ ps : List String, (∀ p ∈ ps, trial p = TrialResult.wrongPassword) →
      unlockGo trial ps = ⟨ps, UnlockExit.reportedFailure, false⟩ := by
  intro ps
  induction ps with
  | nil => intro _; rfl
  | cons p rest ih =>
    intro h
    have hp := h p (List.mem_cons_self p rest)
    have hr := ih (fun q hq => h q (List.mem_cons_of_mem p hq))
    simp [unlockGo, hp, hr]

/-- When the passwords before p all raise PasswordError and p opens the
document, the loop attempts exactly the prefix up to p, saves, and reports
success. -/
theorem unlockGo_first_ok (trial : String → TrialResult) :
    ∀ pre : List String, ∀ p : String, ∀ post : List String,
      (∀ q ∈ pre, trial q = TrialResult.wrongPassword) →
      trial p = TrialResult.ok →
      unlockGo trial (pre ++ p :: post) =
        ⟨pre ++ [p], UnlockExit.reportedSuccess, true⟩ := by
  intro pre
  induction pre with
  | nil => intro p post _ hp; simp [unlockGo, hp]
  | cons q rest ih =>
    intro p post hpre hp
    have hq := hpre q (List.mem_cons_self q rest)
    have hr := ih p post (fun x hx => hpre x (List.mem_cons_of_mem q hx)) hp
    simp [unlockGo, hq, hr]

/-- When the passwords before p all raise PasswordError and p raises any
other exception, the loop stops at p with the exception propagating and no
save. -/
theorem unlockGo_first_err (trial : String → TrialResult) :
    ∀ pre : List String, ∀ p : String, ∀ post : List String,
      (∀ q ∈ pre, trial q = TrialResult.wrongPassword) →
      trial p = TrialResult.otherError →
      unlockGo trial (pre ++ p :: post) =
        ⟨pre ++ [p], UnlockExit.raised, false⟩ := by
  intro pre
  induction pre with
  | nil => intro p post _ hp; simp [unlockGo, hp]
  | cons q rest ih =>
    intro p post hpre hp
    have hq := hpre q (List.mem_cons_self q rest)
    have hr := ih p post (fun x hx => hpre x (List.mem_cons_of_mem q hx)) hp
    simp [unlockGo, hq, hr]

/-- When no password opens the document, pdf.save is never executed. -/
theorem unlockGo_no_ok (trial : String → TrialResult) :
    ∀ ps : List String, (∀ p ∈ ps, trial p ≠ TrialResult.ok) →
      (unlockGo trial ps).saved = false := by
  intro ps
  induction ps with
  | nil => intro _; rfl
  | cons p rest ih =>
    intro h
    have hr := ih (fun q hq => h q (List.mem_cons_of_mem p hq))
    cases hp : trial p with
    | ok => exact absurd hp (h p (List.mem_cons_self p rest))
    | wrongPassword => simp [unlockGo, hp, hr]
    | otherError => simp [unlockGo, hp]

/-- When no password raises an exception other than PasswordError, the loop
never propagates an exception. -/
theorem unlockGo_no_raise (trial : String → TrialResult) :
    ∀ ps : List String, (∀ p ∈ ps, trial p ≠ TrialResult.otherError) →
      (unlockGo trial ps).exit ≠ UnlockExit.raised := by
  intro ps
  induction ps with
  | nil => intro _; simp [unlockGo]
  | cons p rest ih =>
    intro h
    have hr := ih (fun q hq => h q (List.mem_cons_of_mem p hq))
    cases hp : trial p with
    | ok => simp [unlockGo, hp]
    | wrongPassword => simp [unlockGo, hp]; exact hr
    | otherError => exact absurd hp (h p (List.mem_cons_self p rest))

/-- Claim C1: unlock_pdf attempts the candidate passwords strictly in list
order; on the first password for which the document opens it immediately
saves the document back to the same path (no other path changes), stops
trying further candidates, and reports success.  The deterministic file
identifier is captured by the save bytes being a pure function of the file
content: a second run over the same content at that path saves identical
bytes. -/
theorem c1_unlock_first_success_saves
    (w : PdfWorld) (files : PyPath → List Nat) (path : PyPath)
    (pre : List String) (p : String) (post : List String)
    (hpre : ∀ q ∈ pre, w.trial (files path) q = TrialResult.wrongPassword)
    (hp : w.trial (files path) p = TrialResult.ok) :
    (unlock_pdf w files path (pre ++ p :: post)).attempts = pre ++ [p] ∧
    (unlock_pdf w files path (pre ++ p :: post)).exit =
      UnlockExit.reportedSuccess ∧
    (unlock_pdf w files path (pre ++ p :: post)).finalFiles path =
      w.save (files path) ∧
    (∀ q : PyPath, q ≠ path →
      (unlock_pdf w files path (pre ++ p :: post)).finalFiles q = files q) ∧
    (∀ files2 : PyPath → List Nat, files2 path = files path →
      (unlock_pdf w files2 path (pre ++ p :: post)).finalFiles path =
        (unlock_pdf w files path (pre ++ p :: post)).finalFiles path) := by
  have hgo := unlockGo_first_ok (w.trial (files path)) pre p post hpre hp
  refine ⟨?_, ?_, ?_, ?_, ?_⟩
  · simp [unlock_pdf, hgo]
  · simp [unlock_pdf, hgo]
  · simp [unlock_pdf, hgo, setFile]
  · intro q hq
    simp [unlock_pdf, hgo, setFile, hq]
  · intro files2 h2
    have hgo2 : unlockGo (w.trial (files2 path)) (pre ++ p :: post) =
        ⟨pre ++ [p], UnlockExit.reportedSuccess, true⟩ := by
      rw [h2]; exact hgo
    simp [unlock_pdf, hgo, hgo2, setFile, h2]

/-- Claim C1 witness: with wrong password w1 before the working password
hunter2 and w2 after it, exactly w1 and hunter2 are attempted, success is
reported, and the file at the path now holds the deterministic rewrite. -/
theorem c1_witness :
    (unlock_pdf
        ⟨fun _ => none,
          fun _ q => if q = "hunter2" then TrialResult.ok
            else TrialResult.wrongPassword,
          fun b => 9 :: b⟩
        (fun _ => [1]) ⟨true, ["secret.pdf"]⟩
        ["w1", "hunter2", "w2"]).attempts = ["w1", "hunter2"] ∧
    (unlock_pdf
        ⟨fun _ => none,
          fun _ q => if q = "hunter2" then TrialResult.ok
            else TrialResult.wrongPassword,
          fun b => 9 :: b⟩
        (fun _ => [1]) ⟨true, ["secret.pdf"]⟩
        ["w1", "hunter2", "w2"]).exit = UnlockExit.reportedSuccess ∧
    (unlock_pdf
        ⟨fun _ => none,
          fun _ q => if q = "hunter2" then TrialResult.ok
            else TrialResult.wrongPassword,
          fun b => 9 :: b⟩
        (fun _ => [1]) ⟨true, ["secret.pdf"]⟩
        ["w1", "hunter2", "w2"]).finalFiles ⟨true, ["secret.pdf"]⟩ = [9, 1] ∧
    (∀ q : PyPath, q ≠ PyPath.mk true ["secret.pdf"] →
      (unlock_pdf
          ⟨fun _ => none,
            fun _ q => if q = "hunter2" then TrialResult.ok
              else TrialResult.wrongPassword,
            fun b => 9 :: b⟩
          (fun _ => [1]) ⟨true, ["secret.pdf"]⟩
          ["w1", "hunter2", "w2"]).finalFiles q = [1]) ∧
    (∀ files2 : PyPath → List Nat,
      files2 ⟨true, ["secret.pdf"]⟩ = [1] →
      (unlock_pdf
          ⟨fun _ => none,
            fun _ q => if q = "hunter2" then TrialResult.ok
              else TrialResult.wrongPassword,
            fun b => 9 :: b⟩
          files2 ⟨true, ["secret.pdf"]⟩
          ["w1", "hunter2", "w2"]).finalFiles ⟨true, ["secret.pdf"]⟩ =
        (unlock_pdf
            ⟨fun _ => none,
              fun _ q => if q = "hunter2" then TrialResult.ok
                else TrialResult.wrongPassword,
              fun b => 9 :: b⟩
            (fun _ => [1]) ⟨true, ["secret.pdf"]⟩
            ["w1", "hunter2", "w2"]).finalFiles ⟨true, ["secret.pdf"]⟩) :=
  c1_unlock_first_success_saves
    ⟨fun _ => none,
      fun _ q => if q = "hunter2" then TrialResult.ok
        else TrialResult.wrongPassword,
      fun b => 9 :: b⟩
    (fun _ => [1]) ⟨true, ["secret.pdf"]⟩ ["w1"] "hunter2" ["w2"]
    (by decide) (by decide)

/-- Claim C3 counterexample: the claim says that an error other than a
wrong-password error makes the trial move on to the next candidate.  In the
code only pikepdf.PasswordError is caught: with candidates a then b, where a
raises some other exception and b would open the document, the loop stops at
a with the exception propagating, and b is never attempted. -/
theorem c3_counterexample :
    (PdfWorld.mk (fun _ => none)
        (fun _ q => if q = "a" then TrialResult.otherError else TrialResult.ok)
        id).trial [] "b" = TrialResult.ok ∧
    (unlock_pdf
        ⟨fun _ => none,
          fun _ q => if q = "a" then TrialResult.otherError else TrialResult.ok,
          id⟩
        (fun _ => []) ⟨true, ["f.pdf"]⟩ ["a", "b"]).attempts = ["a"] ∧
    (unlock_pdf
        ⟨fun _ => none,
          fun _ q => if q = "a" then TrialResult.otherError else TrialResult.ok,
          id⟩
        (fun _ => []) ⟨true, ["f.pdf"]⟩ ["a", "b"]).exit = UnlockExit.raised := by
  decide

/-- Claim C3 amended: during a password trial in unlock, only a wrong-password
error makes the loop move on; any other error propagates out of unlock_pdf at
that candidate, the remaining candidates are not tried, no success or failure
is reported, the file is unmodified, and nothing records the error (the code
has no ProcessingOutcome). -/
theorem c3_amended_other_error_propagates
    (w : PdfWorld) (files : PyPath → List Nat) (path : PyPath)
    (pre : List String) (p : String) (post : List String)
    (hpre : ∀ q ∈ pre, w.trial (files path) q = TrialResult.wrongPassword)
    (hp : w.trial (files path) p = TrialResult.otherError) :
    (unlock_pdf w files path (pre ++ p :: post)).attempts = pre ++ [p] ∧
    (unlock_pdf w files path (pre ++ p :: post)).exit = UnlockExit.raised ∧
    (unlock_pdf w files path (pre ++ p :: post)).finalFiles = files := by
  have hgo := unlockGo_first_err (w.trial (files path)) pre p post hpre hp
  refine ⟨?_, ?_, ?_⟩ <;> simp [unlock_pdf, hgo]

/-- Claim C3 amended witness: with a disk-error candidate a before a working
candidate b, unlock stops at a, propagates, and leaves the file alone. -/
theorem c3_amended_witness :
    (unlock_pdf
        ⟨fun _ => none,
          fun _ q => if q = "a" then TrialResult.otherError else TrialResult.ok,
          id⟩
        (fun _ => [5]) ⟨true, ["f.pdf"]⟩ ["a", "b"]).attempts = ["a"] ∧
    (unlock_pdf
        ⟨fun _ => none,
          fun _ q => if q = "a" then TrialResult.otherError else TrialResult.ok,
          id⟩
        (fun _ => [5]) ⟨true, ["f.pdf"]⟩ ["a", "b"]).exit = UnlockExit.raised ∧
    (unlock_pdf
        ⟨fun _ => none,
          fun _ q => if q = "a" then TrialResult.otherError else TrialResult.ok,
          id⟩
        (fun _ => [5]) ⟨true, ["f.pdf"]⟩ ["a", "b"]).finalFiles =
      fun _ => [5] :=
  c3_amended_other_error_propagates
    ⟨fun _ => none,
      fun _ q => if q = "a" then TrialResult.otherError else TrialResult.ok,
      id⟩
    (fun _ => [5]) ⟨true, ["f.pdf"]⟩ [] "a" ["b"] (by decide) (by decide)

/-- Claim C5 counterexample: the claim says that whenever no candidate
password succeeds, unlock reports failure.  With the single candidate x whose
trial raises an exception other than PasswordError, no candidate succeeds,
yet unlock_pdf propagates the exception instead of reporting failure. -/
theorem c5_counterexample :
    (∀ p ∈ ["x"],
      (PdfWorld.mk (fun _ => none) (fun _ _ => TrialResult.otherError)
          id).trial [] p ≠ TrialResult.ok) ∧
    (unlock_pdf ⟨fun _ => none, fun _ _ => TrialResult.otherError, id⟩
        (fun _ => []) ⟨true, ["f.pdf"]⟩ ["x"]).exit ≠
      UnlockExit.reportedFailure := by
  decide

/-- Claim C5 amended: when every candidate fails with a wrong-password error,
unlock reports failure after attempting the whole list and the source file is
byte-for-byte unchanged; when no candidate opens the document the file is
unchanged in every case (even when a non-password error propagates instead of
a failure report); for an empty password list unlock reports failure
immediately with zero attempts and no modification. -/
theorem c5_amended_exhausted_list_leaves_file
    (w : PdfWorld) (files : PyPath → List Nat) (path : PyPath)
    (passwords : List String) :
    ((∀ p ∈ passwords, w.trial (files path) p = TrialResult.wrongPassword) →
      (unlock_pdf w files path passwords).exit = UnlockExit.reportedFailure ∧
      (unlock_pdf w files path passwords).attempts = passwords ∧
      (unlock_pdf w files path passwords).finalFiles = files) ∧
    ((∀ p ∈ passwords, w.trial (files path) p ≠ TrialResult.ok) →
      (unlock_pdf w files path passwords).finalFiles = files) ∧
    (passwords = [] →
      (unlock_pdf w files path passwords).attempts = [] ∧
      (unlock_pdf w files path passwords).exit = UnlockExit.reportedFailure ∧
      (unlock_pdf w files path passwords).finalFiles = files) := by
  refine ⟨?_, ?_, ?_⟩
  · intro h
    have hgo := unlockGo_all_wrong (w.trial (files path)) passwords h
    refine ⟨?_, ?_, ?_⟩ <;> simp [unlock_pdf, hgo]
  · intro h
    have hs := unlockGo_no_ok (w.trial (files path)) passwords h
    simp [unlock_pdf, hs]
  · intro h
    subst h
    exact ⟨rfl, rfl, rfl⟩

/-- Claim C5 amended witness: two wrong passwords leave the file bytes
unchanged with failure reported, and the empty list fails immediately with
zero attempts. -/
theorem c5_amended_witness :
    ((unlock_pdf ⟨fun _ => none, fun _ _ => TrialResult.wrongPassword, id⟩
          (fun _ => [3]) ⟨true, ["f.pdf"]⟩ ["a", "b"]).exit =
        UnlockExit.reportedFailure ∧
      (unlock_pdf ⟨fun _ => none, fun _ _ => TrialResult.wrongPassword, id⟩
          (fun _ => [3]) ⟨true, ["f.pdf"]⟩ ["a", "b"]).attempts = ["a", "b"] ∧
      (unlock_pdf ⟨fun _ => none, fun _ _ => TrialResult.wrongPassword, id⟩
          (fun _ => [3]) ⟨true, ["f.pdf"]⟩ ["a", "b"]).finalFiles =
        fun _ => [3]) ∧
    ((unlock_pdf ⟨fun _ => none, fun _ _ => TrialResult.wrongPassword, id⟩
          (fun _ => [3]) ⟨true, ["f.pdf"]⟩ []).attempts = [] ∧
      (unlock_pdf ⟨fun _ => none, fun _ _ => TrialResult.wrongPassword, id⟩
          (fun _ => [3]) ⟨true, ["f.pdf"]⟩ []).exit =
        UnlockExit.reportedFailure ∧
      (unlock_pdf ⟨fun _ => none, fun _ _ => TrialResult.wrongPassword, id⟩
          (fun _ => [3]) ⟨true, ["f.pdf"]⟩ []).finalFiles = fun _ => [3]) :=
  ⟨(c5_amended_exhausted_list_leaves_file
      ⟨fun _ => none, fun _ _ => TrialResult.wrongPassword, id⟩
      (fun _ => [3]) ⟨true, ["f.pdf"]⟩ ["a", "b"]).1 (by decide),
    (c5_amended_exhausted_list_leaves_file
      ⟨fun _ => none, fun _ _ => TrialResult.wrongPassword, id⟩
      (fun _ => [3]) ⟨true, ["f.pdf"]⟩ []).2.2 rfl⟩

/-- Claim C2: the two inspection operations have opposite fail-safe defaults.
For a file whose document cannot be opened, is_pdf_encrypted answers true
while pdf_has_attachments answers false; for a document that opens,
is_pdf_encrypted returns the security handler flag and pdf_has_attachments
returns whether the embedded-file collection is non-empty. -/
theorem c2_inspectors_fail_safe_defaults
    (w : PdfWorld) (files : PyPath → List Nat) (path : PyPath) :
    (w.openDoc (files path) = none →
      is_pdf_encrypted w files path = true ∧
      pdf_has_attachments w files path = false) ∧
    (∀ doc : PdfDoc, w.openDoc (files path) = some doc →
      is_pdf_encrypted w files path = doc.is_encrypted ∧
      (pdf_has_attachments w files path = true ↔ doc.attachments ≠ [])) := by
  constructor
  · intro h
    constructor <;> simp [is_pdf_encrypted, pdf_has_attachments, h]
  · intro doc h
    constructor
    · simp [is_pdf_encrypted, h]
    · simp [pdf_has_attachments, h, List.length_pos]

/-- Claim C2 witness: a world whose open always raises answers encrypted and
no attachments, and one that opens an unencrypted document with one
attachment answers its flag and non-emptiness. -/
theorem c2_witness :
    (is_pdf_encrypted ⟨fun _ => none, fun _ _ => TrialResult.ok, id⟩
        (fun _ => []) ⟨true, ["f.pdf"]⟩ = true ∧
      pdf_has_attachments ⟨fun _ => none, fun _ _ => TrialResult.ok, id⟩
        (fun _ => []) ⟨true, ["f.pdf"]⟩ = false) ∧
    (is_pdf_encrypted
        ⟨fun _ => some ⟨false, [⟨"r", none⟩]⟩, fun _ _ => TrialResult.ok, id⟩
        (fun _ => []) ⟨true, ["f.pdf"]⟩ = false ∧
      (pdf_has_attachments
          ⟨fun _ => some ⟨false, [⟨"r", none⟩]⟩, fun _ _ => TrialResult.ok, id⟩
          (fun _ => []) ⟨true, ["f.pdf"]⟩ = true ↔
        ([⟨"r", none⟩] : List AttachmentEntry) ≠ [])) :=
  ⟨(c2_inspectors_fail_safe_defaults
      ⟨fun _ => none, fun _ _ => TrialResult.ok, id⟩
      (fun _ => []) ⟨true, ["f.pdf"]⟩).1 rfl,
    (c2_inspectors_fail_safe_defaults
      ⟨fun _ => some ⟨false, [⟨"r", none⟩]⟩, fun _ _ => TrialResult.ok, id⟩
      (fun _ => []) ⟨true, ["f.pdf"]⟩).2 ⟨false, [⟨"r", none⟩]⟩ rfl⟩

/-- Claim C6: extraction processes every attachment entry exactly once and in
order; an entry whose spec resolves to a filename with a case-insensitive
.pdf extension is written to the destination (or recorded as a caught write
failure, which does not stop the loop), every other resolvable entry is
recorded as skipped, and an unresolvable entry is recorded as skipped
without aborting. -/
theorem c6_extract_filters_and_continues
    (w : PdfWorld) (files : PyPath → List Nat) (path consume : PyPath)
    (doc : PdfDoc) (hopen : w.openDoc (files path) = some doc) :
    extract_pdf_attachments w files path consume =
      some (doc.attachments.map (extractStep consume)) ∧
    (doc.attachments.map (extractStep consume)).length =
      doc.attachments.length ∧
    (∀ a : AttachmentEntry, ∀ s : AttachSpec, a.spec = some s →
      (is_pdf s.filename = true → s.writeOk = true →
        extractStep consume a =
          AtOutcome.written (consume.join s.filename) s.content) ∧
      (is_pdf s.filename = true → s.writeOk = false →
        extractStep consume a =
          AtOutcome.writeFailed (consume.join s.filename)) ∧
      (is_pdf s.filename = false →
        extractStep consume a = AtOutcome.skippedNotPdf s.filename)) ∧
    (∀ a : AttachmentEntry, a.spec = none →
      extractStep consume a = AtOutcome.unresolvable a.key) := by
  refine ⟨?_, List.length_map _ _, ?_, ?_⟩
  · simp [extract_pdf_attachments, hopen]
  · intro a s hs
    refine ⟨?_, ?_, ?_⟩ <;> intros <;> simp [extractStep, hs, *]
  · intro a ha
    simp [extractStep, ha]

/-- Claim C6 witness: a document with attachments report.pdf (write succeeds),
image.png, a broken record, and evil.pdf (write fails) produces, in order, a
write, a skip, an unresolvable record, and a caught write failure. -/
theorem c6_witness :
    extract_pdf_attachments
      ⟨fun _ =>
          some ⟨false,
            [⟨"a1", some ⟨⟨false, ["report.pdf"]⟩, [7], true⟩⟩,
              ⟨"a2", some ⟨⟨false, ["image.png"]⟩, [8], true⟩⟩,
              ⟨"a3", none⟩,
              ⟨"a4", some ⟨⟨false, ["evil.pdf"]⟩, [9], false⟩⟩]⟩,
        fun _ _ => TrialResult.ok, id⟩
      (fun _ => []) ⟨true, ["bundle.pdf"]⟩ ⟨true, ["consume"]⟩ =
      some
        [AtOutcome.written ⟨true, ["consume", "report.pdf"]⟩ [7],
          AtOutcome.skippedNotPdf ⟨false, ["image.png"]⟩,
          AtOutcome.unresolvable "a3",
          AtOutcome.writeFailed ⟨true, ["consume", "evil.pdf"]⟩] := by
  have h :=
    (c6_extract_filters_and_continues
      ⟨fun _ =>
          some ⟨false,
            [⟨"a1", some ⟨⟨false, ["report.pdf"]⟩, [7], true⟩⟩,
              ⟨"a2", some ⟨⟨false, ["image.png"]⟩, [8], true⟩⟩,
              ⟨"a3", none⟩,
              ⟨"a4", some ⟨⟨false, ["evil.pdf"]⟩, [9], false⟩⟩]⟩,
        fun _ _ => TrialResult.ok, id⟩
      (fun _ => []) ⟨true, ["bundle.pdf"]⟩ ⟨true, ["consume"]⟩
      ⟨false,
        [⟨"a1", some ⟨⟨false, ["report.pdf"]⟩, [7], true⟩⟩,
          ⟨"a2", some ⟨⟨false, ["image.png"]⟩, [8], true⟩⟩,
          ⟨"a3", none⟩,
          ⟨"a4", some ⟨⟨false, ["evil.pdf"]⟩, [9], false⟩⟩]⟩ rfl).1
  rw [h]
  decide

/-- Claim C9: the write target for a resolvable PDF-named attachment is
consume_path / filename via the pathlib join; when the stored filename is
absolute the join discards the destination prefix and the target is the
stored path itself, landing outside the destination directory whenever that
path does not start with the destination components, while the target
destinationDir/filename only arises for relative filenames. -/
theorem c9_absolute_filename_escapes_destination
    (consume : PyPath) (a : AttachmentEntry) (s : AttachSpec)
    (hs : a.spec = some s) (hpdf : is_pdf s.filename = true) :
    (s.writeOk = true →
      extractStep consume a =
        AtOutcome.written (consume.join s.filename) s.content) ∧
    (s.filename.absolute = true →
      consume.join s.filename = s.filename ∧
      (¬ consume.components <+: s.filename.components →
        ¬ consume.components <+: (consume.join s.filename).components)) ∧
    (s.filename.absolute = false →
      consume.join s.filename =
        PyPath.mk consume.absolute
          (consume.components ++ s.filename.components)) := by
  refine ⟨?_, ?_, ?_⟩
  · intro hw
    simp [extractStep, hs, hpdf, hw]
  · intro habs
    have hj : consume.join s.filename = s.filename := by
      simp [PyPath.join, habs]
    exact ⟨hj, fun hnp => by rw [hj]; exact hnp⟩
  · intro habs
    simp [PyPath.join, habs]

/-- Claim C9 witness: an attachment whose stored filename is the absolute
path /tmp/evil.pdf is written to /tmp/evil.pdf itself, which does not lie
under the destination /usr/src/paperless/consume. -/
theorem c9_witness :
    extractStep ⟨true, ["usr", "src", "paperless", "consume"]⟩
        ⟨"a1", some ⟨⟨true, ["tmp", "evil.pdf"]⟩, [7], true⟩⟩ =
      AtOutcome.written
        (PyPath.join ⟨true, ["usr", "src", "paperless", "consume"]⟩
          ⟨true, ["tmp", "evil.pdf"]⟩) [7] ∧
    PyPath.join ⟨true, ["usr", "src", "paperless", "consume"]⟩
        ⟨true, ["tmp", "evil.pdf"]⟩ = ⟨true, ["tmp", "evil.pdf"]⟩ ∧
    ¬ ["usr", "src", "paperless", "consume"] <+:
      (PyPath.join ⟨true, ["usr", "src", "paperless", "consume"]⟩
        ⟨true, ["tmp", "evil.pdf"]⟩).components := by
  have h :=
    c9_absolute_filename_escapes_destination
      ⟨true, ["usr", "src", "paperless", "consume"]⟩
      ⟨"a1", some ⟨⟨true, ["tmp", "evil.pdf"]⟩, [7], true⟩⟩
      ⟨⟨true, ["tmp", "evil.pdf"]⟩, [7], true⟩ rfl (by decide)
  exact ⟨h.1 rfl, (h.2.1 rfl).1, (h.2.1 rfl).2 (by decide)⟩

/-- The attachment stage never returns early as not a PDF, always performs the
attachment check, and never propagates: extraction only runs after
pdf_has_attachments answered true, which requires the same bytes to open, so
the unguarded pikepdf.open inside extract_pdf_attachments succeeds. -/
theorem attachStage_fields (w : PdfWorld) (files : PyPath → List Nat)
    (path consume : PyPath) (wasEnc : Bool) (u : Option UnlockResult) :
    (attachStage w files path consume wasEnc u).attachmentsChecked = true ∧
    (attachStage w files path consume wasEnc u).notPdf = false ∧
    (attachStage w files path consume wasEnc u).raised = false := by
  unfold attachStage
  cases h : w.openDoc (files path) with
  | none => simp [pdf_has_attachments, h]
  | some doc =>
    by_cases hl : 0 < doc.attachments.length
    · simp [pdf_has_attachments, h, hl, extract_pdf_attachments]
    · simp [pdf_has_attachments, h, hl]

/-- A file that passes the extension check never takes the early not-a-PDF
return. -/
theorem process_notPdf_false (w : PdfWorld) (files : PyPath → List Nat)
    (path : PyPath) (passwords : List String) (consume : PyPath)
    (hpdf : is_pdf path = true) :
    (process_pdf_file w files path passwords consume).notPdf = false := by
  unfold process_pdf_file
  by_cases henc : is_pdf_encrypted w files path = true
  · by_cases hex : (unlock_pdf w files path passwords).exit = UnlockExit.raised
    · simp [hpdf, henc, hex]
    · simp [hpdf, henc, hex, (attachStage_fields w _ path consume true _).2.1]
  · simp [hpdf, henc, (attachStage_fields w files path consume false none).2.1]

/-- When no password trial raises an exception other than PasswordError, a
single file is always processed to completion without propagating. -/
theorem process_raised_false (w : PdfWorld) (files : PyPath → List Nat)
    (path : PyPath) (passwords : List String) (consume : PyPath)
    (hw : ∀ (b : List Nat) (q : String), w.trial b q ≠ TrialResult.otherError) :
    (process_pdf_file w files path passwords consume).raised = false := by
  unfold process_pdf_file
  by_cases hpdf : is_pdf path = true
  · by_cases henc : is_pdf_encrypted w files path = true
    · have hnr : (unlock_pdf w files path passwords).exit ≠ UnlockExit.raised := by
        have h := unlockGo_no_raise (w.trial (files path)) passwords
          (fun p _ => hw (files path) p)
        simpa [unlock_pdf] using h
      simp [hpdf, henc, hnr, (attachStage_fields w _ path consume true _).2.2]
    · simp [hpdf, henc, (attachStage_fields w files path consume false none).2.2]
  · simp [hpdf]

/-- Claim C7: for every file that passes the extension check, whenever the
decryption stage terminates normally (success reported or failure reported;
in particular whenever it is skipped because the file is not encrypted), the
attachment-inspection stage is reached; extraction is not gated on the
decryption verdict. -/
theorem c7_extraction_not_gated_on_decryption
    (w : PdfWorld) (files : PyPath → List Nat) (path : PyPath)
    (passwords : List String) (consume : PyPath)
    (hpdf : is_pdf path = true)
    (hnr : is_pdf_encrypted w files path = true →
      (unlock_pdf w files path passwords).exit ≠ UnlockExit.raised) :
    (process_pdf_file w files path passwords consume).attachmentsChecked =
      true ∧
    (process_pdf_file w files path passwords consume).notPdf = false := by
  refine ⟨?_, process_notPdf_false w files path passwords consume hpdf⟩
  unfold process_pdf_file
  by_cases henc : is_pdf_encrypted w files path = true
  · simp [hpdf, henc, hnr henc,
      (attachStage_fields w _ path consume true _).1]
  · simp [hpdf, henc, (attachStage_fields w files path consume false none).1]

/-- Claim C7 witness: an encrypted document whose single candidate password is
wrong makes decryption report failure, and the attachment stage is still
reached. -/
theorem c7_witness :
    (process_pdf_file
        ⟨fun _ => some ⟨true, []⟩, fun _ _ => TrialResult.wrongPassword, id⟩
        (fun _ => [1]) ⟨true, ["a.pdf"]⟩ ["p"]
        ⟨true, ["c"]⟩).attachmentsChecked = true ∧
    (process_pdf_file
        ⟨fun _ => some ⟨true, []⟩, fun _ _ => TrialResult.wrongPassword, id⟩
        (fun _ => [1]) ⟨true, ["a.pdf"]⟩ ["p"]
        ⟨true, ["c"]⟩).notPdf = false :=
  c7_extraction_not_gated_on_decryption
    ⟨fun _ => some ⟨true, []⟩, fun _ _ => TrialResult.wrongPassword, id⟩
    (fun _ => [1]) ⟨true, ["a.pdf"]⟩ ["p"] ⟨true, ["c"]⟩
    (by decide) (fun _ => by decide)

/-- Claim C4 counterexample: the claim says a per-file failure never stops the
directory run.  With bad.pdf holding bytes that raise a non-password error
during the password trial and good.pdf a matching sibling, the run aborts at
bad.pdf and good.pdf is never processed. -/
theorem c4_counterexample :
    globPdf "good.pdf" = true ∧
    (directoryRun
        ⟨fun _ => some ⟨true, []⟩,
          fun b _ => if b = [0] then TrialResult.otherError
            else TrialResult.wrongPassword,
          id⟩
        ⟨true, ["d"]⟩ ⟨true, ["c"]⟩ ["p"]
        (fun q => if q = ⟨true, ["d", "bad.pdf"]⟩ then [0] else [1])
        ["bad.pdf", "good.pdf"]).aborted = true ∧
    (directoryRun
        ⟨fun _ => some ⟨true, []⟩,
          fun b _ => if b = [0] then TrialResult.otherError
            else TrialResult.wrongPassword,
          id⟩
        ⟨true, ["d"]⟩ ⟨true, ["c"]⟩ ["p"]
        (fun q => if q = ⟨true, ["d", "bad.pdf"]⟩ then [0] else [1])
        ["bad.pdf", "good.pdf"]).processed.map Prod.fst = ["bad.pdf"] := by
  decide

/-- Claim C4 amended: failures the code catches (exhausted password lists,
unopenable files at the inspection stage, individual attachment write
failures) are confined to their file and every matching sibling is still
processed; but an uncaught exception — any password-trial error other than a
wrong password — aborts the whole directory run with the remaining files
unprocessed.  Under the hypothesis that no trial raises such an error, the
run processes exactly the glob-matching files, in order. -/
theorem c4_amended_isolation_only_for_caught_failures
    (w : PdfWorld) (dir consume : PyPath) (passwords : List String)
    (hw : ∀ (b : List Nat) (q : String), w.trial b q ≠ TrialResult.otherError) :
    ∀ (names : List String) (files : PyPath → List Nat),
      (directoryRun w dir consume passwords files names).aborted = false ∧
      (directoryRun w dir consume passwords files names).processed.map
          Prod.fst = names.filter globPdf := by
  intro names
  induction names with
  | nil => intro files; exact ⟨rfl, rfl⟩
  | cons n rest ih =>
    intro files
    by_cases hg : globPdf n = true
    · have hr := process_raised_false w files (dir.join ⟨false, [n]⟩)
        passwords consume hw
      have ihx := ih (process_pdf_file w files (dir.join ⟨false, [n]⟩)
        passwords consume).finalFiles
      constructor
      · simp [directoryRun, hg, hr, ihx.1]
      · simp [directoryRun, hg, hr, List.filter_cons, ihx.2]
    · have ihx := ih files
      constructor
      · simp [directoryRun, hg, ihx.1]
      · simp [directoryRun, hg, List.filter_cons, ihx.2]

/-- Claim C4 amended witness: with only wrong-password trials, a directory
with a.pdf, skip.txt and b.pdf processes exactly a.pdf and b.pdf and does not
abort. -/
theorem c4_amended_witness :
    (directoryRun ⟨fun _ => some ⟨true, []⟩,
          fun _ _ => TrialResult.wrongPassword, id⟩
        ⟨true, ["d"]⟩ ⟨true, ["c"]⟩ ["p"] (fun _ => [1])
        ["a.pdf", "skip.txt", "b.pdf"]).aborted = false ∧
    (directoryRun ⟨fun _ => some ⟨true, []⟩,
          fun _ _ => TrialResult.wrongPassword, id⟩
        ⟨true, ["d"]⟩ ⟨true, ["c"]⟩ ["p"] (fun _ => [1])
        ["a.pdf", "skip.txt", "b.pdf"]).processed.map Prod.fst =
      ["a.pdf", "b.pdf"] :=
  c4_amended_isolation_only_for_caught_failures
    ⟨fun _ => some ⟨true, []⟩, fun _ _ => TrialResult.wrongPassword, id⟩
    ⟨true, ["d"]⟩ ⟨true, ["c"]⟩ ["p"]
    (fun _ _ h => TrialResult.noConfusion h)
    ["a.pdf", "skip.txt", "b.pdf"] (fun _ => [1])

/-- Claim C10: PDF selection is inconsistent between the two modes.  The name
doc.PDF fails the case-sensitive glob of directory mode, so a directory run
over it processes nothing, while the same name passed as a single file passes
the lower-cased extension check and is processed past the extension guard. -/
theorem c10_extension_selection_inconsistent :
    globPdf "doc.PDF" = false ∧
    is_pdf ⟨false, ["doc.PDF"]⟩ = true ∧
    (∀ (w : PdfWorld) (dir consume : PyPath) (passwords : List String)
        (files : PyPath → List Nat),
      (directoryRun w dir consume passwords files ["doc.PDF"]).processed =
          [] ∧
      (directoryRun w dir consume passwords files ["doc.PDF"]).aborted =
        false) ∧
    (∀ (w : PdfWorld) (consume : PyPath) (passwords : List String)
        (files : PyPath → List Nat),
      (process_pdf_file w files ⟨false, ["doc.PDF"]⟩ passwords
          consume).notPdf = false) := by
  refine ⟨by decide, by decide, ?_, ?_⟩
  · intro w dir consume passwords files
    have hg : globPdf "doc.PDF" = false := by decide
    constructor <;> simp [directoryRun, hg]
  · intro w consume passwords files
    exact process_notPdf_false w files ⟨false, ["doc.PDF"]⟩ passwords consume
      (by decide)

/-- Claim C10 witness: a concrete run over the single name doc.PDF in
directory mode processes nothing, while single-file mode passes the
extension guard on the same name. -/
theorem c10_witness :
    (directoryRun ⟨fun _ => none, fun _ _ => TrialResult.ok, id⟩
        ⟨true, ["d"]⟩ ⟨true, ["c"]⟩ ["p"] (fun _ => [1])
        ["doc.PDF"]).processed = [] ∧
    (process_pdf_file ⟨fun _ => none, fun _ _ => TrialResult.ok, id⟩
        (fun _ => [1]) ⟨false, ["doc.PDF"]⟩ ["p"]
        ⟨true, ["c"]⟩).notPdf = false :=
  ⟨(c10_extension_selection_inconsistent.2.2.1
      ⟨fun _ => none, fun _ _ => TrialResult.ok, id⟩
      ⟨true, ["d"]⟩ ⟨true, ["c"]⟩ ["p"] (fun _ => [1])).1,
    c10_extension_selection_inconsistent.2.2.2
      ⟨fun _ => none, fun _ _ => TrialResult.ok, id⟩
      ⟨true, ["c"]⟩ ["p"] (fun _ => [1])⟩

/-- A string has positive length exactly when it is not the empty string. -/
theorem string_length_pos_iff (p : String) : 0 < p.length ↔ p ≠ "" := by
  cases p with
  | mk data => simp [String.length, String.ext_iff, List.length_pos]

/-- Claim C8: password loading maps the raw source text to the list obtained
by splitting into lines, trimming each line, and dropping empty lines — the
spec-worded pipeline — preserving the original line order (the result is a
sublist of the stripped lines) with no empty entries. -/
theorem c8_get_passwords_matches_spec (text : String) :
    get_passwords text = specPasswordLoad text ∧
    List.Sublist (get_passwords text) ((pySplitlines text).map pyStrip) ∧
    (∀ p ∈ get_passwords text, p ≠ "") := by
  refine ⟨?_, ?_, ?_⟩
  · unfold get_passwords specPasswordLoad
    apply List.filter_congr
    intro p _
    exact decide_eq_decide.mpr (string_length_pos_iff p)
  · exact List.filter_sublist _
  · intro p hp
    unfold get_passwords at hp
    have h2 := (List.mem_filter.mp hp).2
    exact (string_length_pos_iff p).mp (of_decide_eq_true h2)

/-- Claim C8 witness: the theorem applied to a concrete password file text
with surrounding whitespace and a blank line. -/
theorem c8_witness :
    get_passwords "w1\n  hunter2 \n\nw2\n" =
      specPasswordLoad "w1\n  hunter2 \n\nw2\n" ∧
    List.Sublist (get_passwords "w1\n  hunter2 \n\nw2\n")
      ((pySplitlines "w1\n  hunter2 \n\nw2\n").map pyStrip) ∧
    (∀ p ∈ get_passwords "w1\n  hunter2 \n\nw2\n", p ≠ "") :=
  c8_get_passwords_matches_spec "w1\n  hunter2 \n\nw2\n"
